import Mathlib

/-!
Shallow embedding of the `email-service` repository (an HTTP facade that
renders templated HTML emails and hands them to a delivery provider).

Source layout mirrored here:
* `templates.py` — the Jinja-style placeholder substitution engine
  (`render_template`, `HTML_WRAPPER`) and the four template definitions;
* `config.py` — the `Settings` record;
* `transport.py` — `send_email`, the single-attempt delivery call;
* `main.py` — the payload validation model and the four POST handlers,
  which share one code shape (`post_send`).

Jinja2 rendering (with its default configuration, as used by the source:
plain `jinja2.Template`, autoescape off, default `Undefined`) is modelled by
`parseTemplate`/`renderItems`: a template string is scanned for
`\x7b\x7b name \x7d\x7d` occurrences; each is replaced by the looked-up value, and a
variable absent from the mapping renders as the empty string.
-/

namespace EmailService

/-- Character lists stand for the rendered text; template literals are
supplied as `String` and converted with `String.data`. -/
abbrev Chars := List Char

/-- A variable mapping (Python `Dict[str, str]` at the granularity the
claims use); lookup finds the first binding of a key. -/
abbrev Dict := List (String × String)

/-- One parsed element of a template: a literal chunk or a variable slot. -/
inductive TItem where
  | lit (s : Chars)
  | var (name : Chars)
deriving DecidableEq

/-- Characters Jinja accepts in an identifier (enough for these templates). -/
def isNameChar (c : Char) : Bool :=
  c.isAlphanum || c == '_'

/-- Skip blanks after an opening `\x7b\x7b`. -/
def dropSpaces : Chars → Chars
  | ' ' :: rest => dropSpaces rest
  | cs => cs

/-- Skip the remainder of a variable expression (for these templates: blanks
and an optional `| safe` filter, the identity under autoescape off) up to and
past the closing `\x7d\x7d`. -/
def dropToClose : Chars → Chars
  | '}' :: '}' :: rest => rest
  | _ :: rest => dropToClose rest
  | [] => []

/-- Fuelled template scanner: text is copied through one character at a
time; `\x7b\x7b` opens a variable slot whose identifier is read and whose
expression is skipped to the closing `\x7d\x7d`. One unit of fuel is spent per
emitted item, so `length cs` fuel always suffices. -/
def parseT : Nat → Chars → List TItem
  | 0, _ => []
  | _ + 1, [] => []
  | fuel + 1, '{' :: '{' :: rest =>
      let r1 := dropSpaces rest
      TItem.var (r1.takeWhile isNameChar) ::
        parseT fuel (dropToClose (r1.dropWhile isNameChar))
  | fuel + 1, c :: rest => TItem.lit [c] :: parseT fuel rest

/-- Parse a template into literal chunks and variable slots. -/
def parseTemplate (cs : Chars) : List TItem :=
  parseT cs.length cs

/-- Render parsed items against an environment; an unbound variable renders
as the empty string (Jinja2 default `Undefined`). -/
def renderItems : List TItem → (String → Option String) → Chars
  | [], _ => []
  | TItem.lit s :: rest, env => s ++ renderItems rest env
  | TItem.var n :: rest, env =>
      ((env (String.mk n)).getD "").data ++ renderItems rest env

/-- The variable names a parsed template references, in order. -/
def varsOfItems : List TItem → List String
  | [] => []
  | TItem.lit _ :: rest => varsOfItems rest
  | TItem.var n :: rest => String.mk n :: varsOfItems rest

/-- The environment a Python dict presents to Jinja. -/
def dictEnv (d : Dict) : String → Option String :=
  fun k => List.lookup k d

/-- Python `d.get(k, dflt)`. -/
def dget (d : Dict) (k dflt : String) : String :=
  (List.lookup k d).getD dflt

/-- Python `d[k] = v`: modelled as a shadowing insertion, observationally
equal to in-place update with respect to `List.lookup`. -/
def dictSet (d : Dict) (k v : String) : Dict :=
  (k, v) :: d

/-! Template literals, transcribed byte-for-byte from `templates.py`. -/

def HTML_WRAPPER_STR : String :=
  "\n<!DOCTYPE html>\n<html lang=\"en\">\n<head>\n    <meta charset=\"UTF-8\">\n    <meta name=\"viewport\" content=\"width=device-width, initial-scale=1.0\">\n    <title>\x7b\x7b subject \x7d\x7d</title>\n    <style>\n        body \x7b font-family: Arial, sans-serif; line-height: 1.6; color: #333; \x7d\n        .container \x7b max-width: 600px; margin: 20px auto; padding: 20px; border: 1px solid #ddd; border-radius: 5px; \x7d\n        .button \x7b display: inline-block; padding: 10px 20px; background-color: #007bff; color: #fff; text-decoration: none; border-radius: 3px; \x7d\n        .footer \x7b margin-top: 20px; font-size: 0.8em; color: #777; \x7d\n    </style>\n</head>\n<body>\n    <div class=\"container\">\n        \x7b\x7b body_content | safe \x7d\x7d\n        <div class=\"footer\">\n            <p>The \x7b\x7b company_name \x7d\x7d Team</p>\n        </div>\n    </div>\n</body>\n</html>\n"

/-- The shared wrapper layout from `templates.py` (`HTML_WRAPPER`). -/
def HTML_WRAPPER : Chars :=
  HTML_WRAPPER_STR.data

/-- The keyword environment `render_template` hands to the wrapper render:
exactly `subject`, `body_content` and `company_name`, the last defaulting to
`"Company"` via `data.get`. -/
def wrapperEnv (subject : String) (wrapped_body : Chars) (data : Dict) :
    String → Option String :=
  fun k =>
    if k = "subject" then some subject
    else if k = "body_content" then some (String.mk wrapped_body)
    else if k = "company_name" then some (dget data "company_name" "Company")
    else none

/-- `templates.render_template`: render the content fragment against `data`,
then embed it in `HTML_WRAPPER` with the subject and the company name. -/
def render_template (subject : String) (body_html : Chars) (data : Dict) :
    Chars :=
  let wrapped_body := renderItems (parseTemplate body_html) (dictEnv data)
  renderItems (parseTemplate HTML_WRAPPER) (wrapperEnv subject wrapped_body data)

def subscriptionEndBodyStr : String :=
  "\n    <p>Hi \x7b\x7b FirstName \x7d\x7d,</p>\n    <p>We noticed your subscription to <strong>\x7b\x7b ProductServiceName \x7d\x7d</strong> is ending on <strong>\x7b\x7b EndDate \x7d\x7d</strong>. We’d hate to see you miss out on all the benefits — exclusive updates, premium content, and priority support.</p>\n    <p>Renew now to continue uninterrupted access:</p>\n    <p><a href=\"#\" class=\"button\">👉 Renew My Subscription</a></p>\n    <p>If you’ve already renewed, thank you! Please disregard this message.</p>\n    <p>Best regards,</p>\n    "

def optInBodyStr : String :=
  "\n    <p>Hi \x7b\x7b FirstName \x7d\x7d,</p>\n    <p>Thanks for your interest in \x7b\x7b company_name \x7d\x7d!</p>\n    <p>To make sure we’ve got your permission, please confirm your subscription by clicking the button below:</p>\n    <p><a href=\"#\" class=\"button\">✅ Confirm My Subscription</a></p>\n    <p>Once confirmed, you’ll receive updates on our latest offers, news, and insights.</p>\n    <p>If you didn’t request this, simply ignore this email.</p>\n    <p>Warm regards,</p>\n    "

def newsletterBodyStr : String :=
  "\n    <p>Hello \x7b\x7b FirstName \x7d\x7d,</p>\n    <p>Here’s what’s new this month at \x7b\x7b company_name \x7d\x7d:</p>\n    <h4>📰 In the Spotlight: \x7b\x7b Headline1 \x7d\x7d</h4>\n    <p><i>A brief description or introduction to the main headline can go here, expanding on the topic.</i></p>\n    <h4>💡 Pro Tip: \x7b\x7b TipOrInsight \x7d\x7d</h4>\n    <p><i>Elaborate on the tip, providing actionable advice your readers can use.</i></p>\n    <h4>📅 Upcoming Event: \x7b\x7b EventName \x7d\x7d on \x7b\x7b EventDate \x7d\x7d</h4>\n    <p><i>Give some more details about the event and why people should be excited to attend or participate.</i></p>\n    <h4>🎁 Exclusive Offer: \x7b\x7b OfferDetails \x7d\x7d</h4>\n    <p><i>Explain the offer in more detail and create a sense of urgency or exclusivity.</i></p>\n    <p>Stay tuned for more updates and insights in next month’s edition!</p>\n    <p>Cheers,</p>\n    "

def productLaunchBodyStr : String :=
  "\n    <p>Hi \x7b\x7b FirstName \x7d\x7d,</p>\n    <p>We’re thrilled to announce the launch of our latest innovation — <strong>\x7b\x7b ProductName \x7d\x7d</strong>!</p>\n    <p>Designed to \x7b\x7b ProductBenefit \x7d\x7d, this is a game-changer you won’t want to miss.</p>\n    <h4>✨ Key Features:</h4>\n    <ul>\n        <li>\x7b\x7b Feature1 \x7d\x7d</li>\n        <li>\x7b\x7b Feature2 \x7d\x7d</li>\n        <li>\x7b\x7b Feature3 \x7d\x7d</li>\n    </ul>\n    <p><a href=\"#\" class=\"button\">Be among the first to experience it → Learn More / Buy Now</a></p>\n    <p>Thank you for being part of our journey!</p>\n    "

def subscriptionEndSubject : String :=
  "Your Subscription is About to End — Renew Today!"

def optInSubject : String :=
  "Please Confirm Your Subscription"

def newsletterSubjectSuffix : String :=
  " Highlights – News, Tips & What’s Next!"

def productLaunchSubjectPrefix : String :=
  "Introducing Our New "

def productLaunchSubjectSuffix : String :=
  " – It’s Finally Here! 🚀"

/-- `templates.get_subscription_end_notification`. -/
def get_subscription_end_notification (data : Dict) : String × Chars :=
  let subject := subscriptionEndSubject
  (subject, render_template subject subscriptionEndBodyStr.data data)

/-- `templates.get_opt_in_confirmation`. -/
def get_opt_in_confirmation (data : Dict) : String × Chars :=
  let subject := optInSubject
  (subject, render_template subject optInBodyStr.data data)

/-- `templates.get_newsletter_template`; the subject is the f-string
interpolating `data.get("Month", "This Month")`. -/
def get_newsletter_template (data : Dict) : String × Chars :=
  let subject := dget data "Month" "This Month" ++ newsletterSubjectSuffix
  (subject, render_template subject newsletterBodyStr.data data)

/-- `templates.get_product_launch_announcement`; the subject is the f-string
interpolating `data.get("ProductName", "Product")`. -/
def get_product_launch_announcement (data : Dict) : String × Chars :=
  let subject :=
    productLaunchSubjectPrefix ++ dget data "ProductName" "Product" ++
      productLaunchSubjectSuffix
  (subject, render_template subject productLaunchBodyStr.data data)

/-- `config.Settings`: the environment-backed configuration record. -/
structure Settings where
  company_name : String
  sendgrid_api_key : String
  sendgrid_from_email : String

/-- One possible settings value (the defaults of `config.py` with a sample
sender address), used to instantiate witnesses. -/
def sampleSettings : Settings :=
  { company_name := "Your Company"
    sendgrid_api_key := "DEFAULT_KEY_IF_NOT_SET"
    sendgrid_from_email := "noreply@example.com" }

/-- The SendGrid `Mail` object built by `transport.send_email`. -/
structure Mail where
  from_email : String
  to_emails : List String
  subject : String
  html_content : Chars
deriving DecidableEq

/-- `transport.send_email`: builds one `Mail` from the settings sender and
the given fields and submits it to the provider exactly once; a provider
error is re-raised unchanged, a success status is reported. The returned
list records every provider invocation made. -/
def send_email (st : Settings) (to_emails : List String) (subject : String)
    (html_body : Chars) (provider : Mail → Except String Nat) :
    Except String Nat × List Mail :=
  let message : Mail :=
    { from_email := st.sendgrid_from_email
      to_emails := to_emails
      subject := subject
      html_content := html_body }
  match provider message with
  | Except.ok code => (Except.ok code, [message])
  | Except.error e => (Except.error e, [message])

/-- Model of the third-party pydantic `EmailStr` syntactic check, at the
granularity the claims use: the address must split as `local@domain` with a
non-empty local part and a non-empty domain that contains a period and no
further at sign. -/
def isValidEmail (s : String) : Bool :=
  match s.data.dropWhile (fun c => c != '@') with
  | '@' :: domain =>
      !(s.data.takeWhile (fun c => c != '@')).isEmpty && !domain.isEmpty &&
        domain.contains '.' && !domain.contains '@'
  | _ => false

/-- Pydantic validation of the `to` field (`List[EmailStr]`, required): each
element must be a valid address; the list itself may have any length. -/
def validate_to (toAddrs : List String) : Bool :=
  toAddrs.all isValidEmail

/-- A delivery task captured by `BackgroundTasks.add_task(transport.send_email, ...)`. -/
structure SendTask where
  to_emails : List String
  subject : String
  html_body : Chars
deriving DecidableEq

/-- Outcome of one POST to a send endpoint: the HTTP status and the deferred
delivery tasks scheduled (empty on validation failure, since FastAPI rejects
the request before the handler body runs). -/
structure Response where
  status : Nat
  tasks : List SendTask
deriving DecidableEq

/-- The four template identifiers (one per POST endpoint). -/
inductive TemplateId where
  | subscriptionEnding
  | optIn
  | newsletter
  | productLaunch
deriving DecidableEq

/-- The template getter each endpoint calls. -/
def templateFor : TemplateId → Dict → String × Chars
  | TemplateId.subscriptionEnding => get_subscription_end_notification
  | TemplateId.optIn => get_opt_in_confirmation
  | TemplateId.newsletter => get_newsletter_template
  | TemplateId.productLaunch => get_product_launch_announcement

/-- The shared shape of the four POST handlers of `main.py`
(`send_subscription_ending`, `send_opt_in_confirmation`, `send_newsletter`,
`send_product_launch`): after validation, set `data["company_name"]` from
settings, render, and schedule one `transport.send_email` task; reply 202.
On validation failure FastAPI replies 422 and the handler never runs. -/
def post_send (tid : TemplateId) (st : Settings) (toAddrs : List String)
    (data : Dict) : Response :=
  if validate_to toAddrs then
    let data2 := dictSet data "company_name" st.company_name
    let rendered := templateFor tid data2
    { status := 202
      tasks := [{ to_emails := toAddrs, subject := rendered.1, html_body := rendered.2 }] }
  else
    { status := 422, tasks := [] }

/-! Executable substring checking, used to settle concrete containment facts
by evaluation and lifted to `List.IsInfix` by the soundness lemmas below. -/

/-- Executable prefix test. -/
def prefB {α : Type} [DecidableEq α] : List α → List α → Bool
  | [], _ => true
  | _ :: _, [] => false
  | a :: as, b :: bs => if a = b then prefB as bs else false

/-- Executable infix (contiguous-sublist) test. -/
def subB {α : Type} [DecidableEq α] (n : List α) : List α → Bool
  | [] => n.isEmpty
  | b :: bs => prefB n (b :: bs) || subB n bs

theorem prefB_sound {α : Type} [DecidableEq α] {n h : List α}
    (hp : prefB n h = true) : n <+: h := by
  induction n generalizing h with
  | nil => exact List.nil_prefix
  | cons a as ih =>
      cases h with
      | nil => simp [prefB] at hp
      | cons b bs =>
          rw [prefB] at hp
          split at hp
          · rename_i heq
            obtain ⟨t, ht⟩ := ih hp
            exact ⟨t, by rw [List.cons_append, ht, heq]⟩
          · cases hp

theorem subB_sound {α : Type} [DecidableEq α] {n h : List α}
    (hs : subB n h = true) : n <:+: h := by
  induction h with
  | nil =>
      rw [subB, List.isEmpty_iff] at hs
      subst hs
      exact List.nil_infix
  | cons b bs ih =>
      rw [subB, Bool.or_eq_true] at hs
      cases hs with
      | inl hl => exact List.IsPrefix.isInfix (prefB_sound hl)
      | inr hr => exact List.infix_cons (ih hr)

theorem infixAppendLeft {α : Type} {l r : List α} (s : List α)
    (h : l <:+: r) : l <:+: s ++ r :=
  List.IsInfix.trans h (List.IsSuffix.isInfix (List.suffix_append s r))

theorem infixAppendRight {α : Type} {l r : List α} (t : List α)
    (h : l <:+: r) : l <:+: r ++ t :=
  List.IsInfix.trans h (List.IsPrefix.isInfix (List.prefix_append r t))

theorem renderItems_append (a b : List TItem) (env : String → Option String) :
    renderItems (a ++ b) env = renderItems a env ++ renderItems b env := by
  induction a with
  | nil => simp [renderItems]
  | cons x rest ih =>
      cases x with
      | lit s => simp [renderItems, ih]
      | var n => simp [renderItems, ih]

/-- Rendering a contiguous chunk of a parsed template yields a contiguous
chunk of the full rendering. -/
theorem renderChunk {ms items : List TItem} (env : String → Option String)
    (h : ms <:+: items) :
    renderItems ms env <:+: renderItems items env := by
  obtain ⟨s, t, hst⟩ := h
  rw [← hst, renderItems_append, renderItems_append]
  exact List.infix_append _ _ _

/-- Any value the environment supplies for a referenced variable appears
verbatim in the rendering. -/
theorem valueInRender {items : List TItem} {env : String → Option String}
    {n : String} {v : String}
    (hm : n ∈ varsOfItems items) (he : env n = some v) :
    v.data <:+: renderItems items env := by
  induction items with
  | nil => simp [varsOfItems] at hm
  | cons x rest ih =>
      cases x with
      | lit s =>
          rw [varsOfItems] at hm
          rw [renderItems]
          exact infixAppendLeft s (ih hm)
      | var m =>
          rw [varsOfItems] at hm
          rw [renderItems]
          cases List.mem_cons.mp hm with
          | inl heq =>
              subst heq
              rw [he, Option.getD_some]
              exact List.IsPrefix.isInfix (List.prefix_append _ _)
          | inr hmem => exact infixAppendLeft _ (ih hmem)

/-- One literal item per character of a string, as the scanner produces for
plain text. -/
def litsOf (s : String) : List TItem :=
  s.data.map (fun c => TItem.lit [c])

theorem renderLits (l : Chars) (env : String → Option String) :
    renderItems (l.map (fun c => TItem.lit [c])) env = l := by
  induction l with
  | nil => rfl
  | cons c rest ih => simp [renderItems, ih]

/-- If the parsed template contains a variable slot for `n` with given
literal text on both sides, the rendering contains the looked-up value in
that same literal context. -/
theorem ctxInRender {items : List TItem} {env : String → Option String}
    {a b : String} {n : Chars} {v : String}
    (h : subB (litsOf a ++ TItem.var n :: litsOf b) items = true)
    (he : env (String.mk n) = some v) :
    a.data ++ v.data ++ b.data <:+: renderItems items env := by
  have h2 := renderChunk env (subB_sound h)
  rw [renderItems_append, litsOf, litsOf, renderLits, renderItems, he,
    Option.getD_some, renderLits] at h2
  rw [List.append_assoc]
  exact h2

theorem wrapperEnv_subject (subject : String) (w : Chars) (data : Dict) :
    wrapperEnv subject w data "subject" = some subject := rfl

theorem wrapperEnv_body (subject : String) (w : Chars) (data : Dict) :
    wrapperEnv subject w data "body_content" = some (String.mk w) := rfl

theorem wrapperEnv_company (subject : String) (w : Chars) (data : Dict) :
    wrapperEnv subject w data "company_name" =
      some (dget data "company_name" "Company") := rfl

set_option maxRecDepth 20000

theorem mkData (s : String) : String.mk s.data = s := rfl

/-- The content fragment each template identifier selects. -/
def fragmentOf : TemplateId → Chars
  | TemplateId.subscriptionEnding => subscriptionEndBodyStr.data
  | TemplateId.optIn => optInBodyStr.data
  | TemplateId.newsletter => newsletterBodyStr.data
  | TemplateId.productLaunch => productLaunchBodyStr.data

/-- The subject line each template computes. -/
def subjectOf : TemplateId → Dict → String
  | TemplateId.subscriptionEnding, _ => subscriptionEndSubject
  | TemplateId.optIn, _ => optInSubject
  | TemplateId.newsletter, data =>
      dget data "Month" "This Month" ++ newsletterSubjectSuffix
  | TemplateId.productLaunch, data =>
      productLaunchSubjectPrefix ++ dget data "ProductName" "Product" ++
        productLaunchSubjectSuffix

theorem templateFor_eq (tid : TemplateId) (data : Dict) :
    templateFor tid data =
      (subjectOf tid data,
        render_template (subjectOf tid data) (fragmentOf tid) data) := by
  cases tid <;> rfl

theorem wrapper_body_slot :
    subB [TItem.var ("body_content".data)] (parseTemplate HTML_WRAPPER) = true := by
  decide

theorem wrapper_sig_slot :
    subB (litsOf "The " ++ TItem.var ("company_name".data) :: litsOf " Team")
      (parseTemplate HTML_WRAPPER) = true := by
  decide

/-- The rendered content fragment appears contiguously inside the final
document `render_template` produces. -/
theorem bodyInRender (subject : String) (body : Chars) (data : Dict) :
    renderItems (parseTemplate body) (dictEnv data) <:+:
      render_template subject body data := by
  have h := renderChunk
    (wrapperEnv subject (renderItems (parseTemplate body) (dictEnv data)) data)
    (subB_sound wrapper_body_slot)
  rw [renderItems, mkData, wrapperEnv_body, Option.getD_some, mkData,
    renderItems, List.append_nil] at h
  simpa [render_template] using h

/-- The signature line of the wrapper, with the company value `data.get`
resolves, appears in every document `render_template` produces. -/
theorem sigInRender (subject : String) (body : Chars) (data : Dict) :
    "The ".data ++ (dget data "company_name" "Company").data ++ " Team".data <:+:
      render_template subject body data := by
  show _ <:+: renderItems (parseTemplate HTML_WRAPPER) _
  refine ctxInRender wrapper_sig_slot ?_
  rw [mkData]
  exact wrapperEnv_company _ _ _

/-- C1: the code has no MissingVariable failure. At the failing input — the
opt-in endpoint invoked with a mapping that lacks FirstName — the request is
accepted (202), the document is still produced with the unresolved
placeholder substituted by the empty string (the body contains the blank
greeting "Hi ,"), and the delivery task is scheduled anyway. -/
theorem c1_missing_variable_not_an_error :
    (post_send TemplateId.optIn sampleSettings ["a@x.com"] []).status = 202 ∧
    (post_send TemplateId.optIn sampleSettings ["a@x.com"] []).tasks =
      [{ to_emails := ["a@x.com"], subject := optInSubject,
         html_body := (get_opt_in_confirmation
           (dictSet [] "company_name" sampleSettings.company_name)).2 }] ∧
    "Hi ,".data <:+:
      (get_opt_in_confirmation
        (dictSet [] "company_name" sampleSettings.company_name)).2 :=
  ⟨rfl, rfl, subB_sound (by decide)⟩

/-- C2 counterexample: at Month = October the code subject spells the final
word with the typographic right single quotation mark (U+2019), so it is not
equal to the claimed literal, which uses the ASCII apostrophe (U+0027). -/
theorem c2_ascii_apostrophe_counterexample :
    (get_newsletter_template [("Month", "October")]).1 ≠
      "October Highlights – News, Tips & What\x27s Next!" := by
  decide

/-- C2 (amended): with Month bound to October the newsletter subject equals
the literal written with the typographic apostrophe U+2019; with no Month
key the subject contains the literal "This Month" in place of the month. -/
theorem c2_newsletter_subject (data : Dict) :
    (List.lookup "Month" data = some "October" →
      (get_newsletter_template data).1 =
        "October Highlights – News, Tips & What’s Next!") ∧
    (List.lookup "Month" data = none →
      "This Month".data <:+: ((get_newsletter_template data).1).data) := by
  constructor
  · intro h
    show dget data "Month" "This Month" ++ newsletterSubjectSuffix = _
    rw [dget, h, Option.getD_some]
    decide
  · intro h
    show "This Month".data <:+:
      (dget data "Month" "This Month" ++ newsletterSubjectSuffix).data
    rw [dget, h, Option.getD_none]
    exact subB_sound (by decide)

theorem c2_newsletter_subject_witness :
    (List.lookup "Month" [("Month", "October")] = some "October" ∧
      (get_newsletter_template [("Month", "October")]).1 =
        "October Highlights – News, Tips & What’s Next!") ∧
    (List.lookup "Month" ([] : Dict) = none ∧
      "This Month".data <:+: ((get_newsletter_template ([] : Dict)).1).data) :=
  ⟨⟨by decide, (c2_newsletter_subject [("Month", "October")]).1 (by decide)⟩,
   ⟨by decide, (c2_newsletter_subject ([] : Dict)).2 (by decide)⟩⟩

/-- C6: with ProductName bound to SyncMaster 5000 the product-launch subject
contains that value; with no ProductName key it contains the literal
"Product". -/
theorem c6_product_launch_subject (data : Dict) :
    (List.lookup "ProductName" data = some "SyncMaster 5000" →
      "SyncMaster 5000".data <:+:
        ((get_product_launch_announcement data).1).data) ∧
    (List.lookup "ProductName" data = none →
      "Product".data <:+: ((get_product_launch_announcement data).1).data) := by
  constructor
  · intro h
    show "SyncMaster 5000".data <:+:
      (productLaunchSubjectPrefix ++ dget data "ProductName" "Product" ++
        productLaunchSubjectSuffix).data
    rw [dget, h, Option.getD_some]
    exact subB_sound (by decide)
  · intro h
    show "Product".data <:+:
      (productLaunchSubjectPrefix ++ dget data "ProductName" "Product" ++
        productLaunchSubjectSuffix).data
    rw [dget, h, Option.getD_none]
    exact subB_sound (by decide)

theorem c6_product_launch_subject_witness :
    (List.lookup "ProductName" [("ProductName", "SyncMaster 5000")] =
        some "SyncMaster 5000" ∧
      "SyncMaster 5000".data <:+:
        ((get_product_launch_announcement
          [("ProductName", "SyncMaster 5000")]).1).data) ∧
    (List.lookup "ProductName" ([] : Dict) = none ∧
      "Product".data <:+:
        ((get_product_launch_announcement ([] : Dict)).1).data) :=
  ⟨⟨by decide, (c6_product_launch_subject [("ProductName", "SyncMaster 5000")]).1
      (by decide)⟩,
   ⟨by decide, (c6_product_launch_subject ([] : Dict)).2 (by decide)⟩⟩

/-- C10: when the mapping has no company_name key, rendering still succeeds
and the wrapper signature line is produced with the fallback "Company". -/
theorem c10_company_fallback (tid : TemplateId) (data : Dict)
    (h : List.lookup "company_name" data = none) :
    "The Company Team".data <:+: (templateFor tid data).2 := by
  have hs := sigInRender (subjectOf tid data) (fragmentOf tid) data
  rw [dget, h, Option.getD_none] at hs
  have he : "The ".data ++ "Company".data ++ " Team".data =
      "The Company Team".data := by decide
  rw [he] at hs
  rw [templateFor_eq]
  exact hs

theorem c10_company_fallback_witness :
    List.lookup "company_name" [("FirstName", "Alex")] = none ∧
    "The Company Team".data <:+:
      (templateFor TemplateId.subscriptionEnding [("FirstName", "Alex")]).2 :=
  ⟨by decide,
   c10_company_fallback TemplateId.subscriptionEnding [("FirstName", "Alex")]
     (by decide)⟩

/-- C4 counterexample: a request whose `to` list is empty is not rejected —
`List[EmailStr]` imposes no minimum length, so validation passes, the
endpoint replies 202 and a delivery task is still scheduled. -/
theorem c4_empty_to_accepted :
    (post_send TemplateId.optIn sampleSettings [] [("FirstName", "Casey")]).status
        = 202 ∧
    (post_send TemplateId.optIn sampleSettings [] [("FirstName", "Casey")]).tasks
        ≠ [] :=
  ⟨rfl, by simp [post_send, validate_to]⟩

/-- C4 (amended): validation requires every element of `to` to be a
syntactically valid address: if some element has no at sign, the request is
rejected with a client error (422) and no task is scheduled (in particular
no rendering or delivery happens). The empty list, however, is accepted. -/
theorem c4_invalid_email_rejected (tid : TemplateId) (st : Settings)
    (toAddrs : List String) (data : Dict) (a : String)
    (ha : a ∈ toAddrs) (hat : '@' ∉ a.data) :
    (post_send tid st toAddrs data).status = 422 ∧
    (post_send tid st toAddrs data).tasks = [] := by
  have hdw : a.data.dropWhile (fun c => c != '@') = [] := by
    rw [List.dropWhile_eq_nil_iff]
    intro x hx
    rw [bne_iff_ne]
    exact fun hxe => hat (hxe ▸ hx)
  have hv : isValidEmail a = false := by
    rw [isValidEmail, hdw]
  have hall : validate_to toAddrs = false := by
    cases hva : validate_to toAddrs with
    | false => rfl
    | true =>
        have hmem := List.all_eq_true.mp hva a ha
        rw [hv] at hmem
        cases hmem
  rw [post_send, hall]
  exact ⟨rfl, rfl⟩

theorem c4_invalid_email_rejected_witness :
    ("not-an-email" ∈ ["not-an-email"] ∧ '@' ∉ "not-an-email".data) ∧
    ((post_send TemplateId.newsletter sampleSettings ["not-an-email"]
        [("Month", "October")]).status = 422 ∧
     (post_send TemplateId.newsletter sampleSettings ["not-an-email"]
        [("Month", "October")]).tasks = []) :=
  ⟨⟨by decide, by decide⟩,
   c4_invalid_email_rejected TemplateId.newsletter sampleSettings
     ["not-an-email"] [("Month", "October")] "not-an-email"
     (by decide) (by decide)⟩

/-- C7: for every accepted request, the handler overwrites company_name in
the variable mapping with the configured company name before rendering: the
scheduled task is rendered from exactly that enriched mapping, and the
enriched mapping resolves company_name to the settings value. -/
theorem c7_company_name_injected (tid : TemplateId) (st : Settings)
    (toAddrs : List String) (data : Dict)
    (hv : validate_to toAddrs = true) :
    (post_send tid st toAddrs data).tasks =
      [{ to_emails := toAddrs,
         subject := (templateFor tid (dictSet data "company_name" st.company_name)).1,
         html_body := (templateFor tid (dictSet data "company_name" st.company_name)).2 }] ∧
    List.lookup "company_name" (dictSet data "company_name" st.company_name) =
      some st.company_name := by
  constructor
  · rw [post_send, hv]
    rfl
  · rw [dictSet]
    simp [List.lookup]

theorem c7_company_name_injected_witness :
    validate_to ["a@x.com"] = true ∧
    ((post_send TemplateId.newsletter sampleSettings ["a@x.com"]
        [("Month", "October")]).tasks =
      [{ to_emails := ["a@x.com"],
         subject := (templateFor TemplateId.newsletter
           (dictSet [("Month", "October")] "company_name"
             sampleSettings.company_name)).1,
         html_body := (templateFor TemplateId.newsletter
           (dictSet [("Month", "October")] "company_name"
             sampleSettings.company_name)).2 }] ∧
     List.lookup "company_name"
        (dictSet [("Month", "October")] "company_name"
          sampleSettings.company_name) = some sampleSettings.company_name) :=
  ⟨by decide,
   c7_company_name_injected TemplateId.newsletter sampleSettings ["a@x.com"]
     [("Month", "October")] (by decide)⟩

/-- C8: the delivery client builds one message from the configured sender
and the given fields and submits it to the provider exactly once (the
invocation log is the singleton of that message); a provider error is
re-raised carrying its detail, and a provider success is reported as
success. -/
theorem c8_delivery_single_attempt (st : Settings) (toAddrs : List String)
    (subject : String) (html : Chars) (provider : Mail → Except String Nat) :
    (send_email st toAddrs subject html provider).2 =
      [{ from_email := st.sendgrid_from_email, to_emails := toAddrs,
         subject := subject, html_content := html }] ∧
    (∀ e, provider
        { from_email := st.sendgrid_from_email, to_emails := toAddrs,
          subject := subject, html_content := html } = Except.error e →
      (send_email st toAddrs subject html provider).1 = Except.error e) ∧
    (∀ c, provider
        { from_email := st.sendgrid_from_email, to_emails := toAddrs,
          subject := subject, html_content := html } = Except.ok c →
      (send_email st toAddrs subject html provider).1 = Except.ok c) := by
  refine ⟨?_, ?_, ?_⟩
  · cases hp : provider
        { from_email := st.sendgrid_from_email, to_emails := toAddrs,
          subject := subject, html_content := html } <;>
      simp [send_email, hp]
  · intro e hp
    simp [send_email, hp]
  · intro c hp
    simp [send_email, hp]

theorem c8_delivery_single_attempt_witness :
    (send_email sampleSettings ["a@x.com"] "Subject" []
        (fun _ => Except.error "403 Forbidden")).2 =
      [{ from_email := sampleSettings.sendgrid_from_email,
         to_emails := ["a@x.com"], subject := "Subject", html_content := [] }] ∧
    (send_email sampleSettings ["a@x.com"] "Subject" []
        (fun _ => Except.error "403 Forbidden")).1 =
      Except.error "403 Forbidden" :=
  ⟨(c8_delivery_single_attempt sampleSettings ["a@x.com"] "Subject" []
      (fun _ => Except.error "403 Forbidden")).1,
   (c8_delivery_single_attempt sampleSettings ["a@x.com"] "Subject" []
      (fun _ => Except.error "403 Forbidden")).2.1 "403 Forbidden" rfl⟩

/-- The provider is invoked exactly once per `send_email` call, with the one
message built from the configured sender and the given fields. -/
theorem send_email_invocations (st : Settings) (toAddrs : List String)
    (subject : String) (html : Chars) (provider : Mail → Except String Nat) :
    (send_email st toAddrs subject html provider).2 =
      [{ from_email := st.sendgrid_from_email, to_emails := toAddrs,
         subject := subject, html_content := html }] := by
  cases hp : provider
      { from_email := st.sendgrid_from_email, to_emails := toAddrs,
        subject := subject, html_content := html } <;>
    simp [send_email, hp]

theorem optin_greeting_slot :
    subB (litsOf "Hi " ++ TItem.var ("FirstName".data) :: litsOf ",")
      (parseTemplate optInBodyStr.data) = true := by
  decide

/-- C5: posting the opt-in request with recipient a@x.com and FirstName
Casey yields 202 with exactly one scheduled task; its subject is the static
opt-in subject and its document contains the greeting with the substituted
name; running the deferred task makes exactly one provider invocation
carrying that same subject and document. -/
theorem c5_opt_in_end_to_end (st : Settings)
    (provider : Mail → Except String Nat) :
    (post_send TemplateId.optIn st ["a@x.com"] [("FirstName", "Casey")]).status
        = 202 ∧
    ∃ t : SendTask,
      (post_send TemplateId.optIn st ["a@x.com"] [("FirstName", "Casey")]).tasks
          = [t] ∧
      t.subject = "Please Confirm Your Subscription" ∧
      "Hi Casey,".data <:+: t.html_body ∧
      ∃ m : Mail,
        (send_email st t.to_emails t.subject t.html_body provider).2 = [m] ∧
        m.subject = t.subject ∧ m.html_content = t.html_body := by
  refine ⟨rfl,
    ⟨{ to_emails := ["a@x.com"], subject := optInSubject,
       html_body := (get_opt_in_confirmation
         (dictSet [("FirstName", "Casey")] "company_name" st.company_name)).2 },
      rfl, rfl, ?_, ?_⟩⟩
  · have he : dictEnv
        (dictSet [("FirstName", "Casey")] "company_name" st.company_name)
        (String.mk ("FirstName".data)) = some "Casey" := by
      rw [mkData]
      rfl
    have hb := ctxInRender optin_greeting_slot he
    have hw := List.IsInfix.trans hb
      (bodyInRender optInSubject optInBodyStr.data
        (dictSet [("FirstName", "Casey")] "company_name" st.company_name))
    have hcat : "Hi ".data ++ "Casey".data ++ ",".data = "Hi Casey,".data := by
      decide
    rw [hcat] at hw
    exact hw
  · exact ⟨{ from_email := st.sendgrid_from_email, to_emails := ["a@x.com"],
             subject := optInSubject,
             html_content := (get_opt_in_confirmation
               (dictSet [("FirstName", "Casey")] "company_name"
                 st.company_name)).2 },
      send_email_invocations st ["a@x.com"] optInSubject
        ((get_opt_in_confirmation
          (dictSet [("FirstName", "Casey")] "company_name" st.company_name)).2)
        provider,
      rfl, rfl⟩

/-- C3: for every template and mapping, each value the mapping supplies for
a placeholder of the content fragment appears verbatim in the rendered
document, and the document carries the supplied company name inside the
wrapper signature line. -/
theorem c3_supplied_values_appear_verbatim (tid : TemplateId) (data : Dict)
    (c : String) (hc : List.lookup "company_name" data = some c) :
    (∀ n v, n ∈ varsOfItems (parseTemplate (fragmentOf tid)) →
        List.lookup n data = some v → v.data <:+: (templateFor tid data).2) ∧
    "The ".data ++ c.data ++ " Team".data <:+: (templateFor tid data).2 := by
  rw [templateFor_eq]
  constructor
  · intro n v hn hv
    exact List.IsInfix.trans
      (valueInRender hn (show dictEnv data n = some v from hv))
      (bodyInRender (subjectOf tid data) (fragmentOf tid) data)
  · have hs := sigInRender (subjectOf tid data) (fragmentOf tid) data
    rw [dget, hc, Option.getD_some] at hs
    exact hs

/-- The newsletter example payload of main.py together with the injected
company binding, used to instantiate witnesses. -/
def newsletterExampleData : Dict :=
  [("FirstName", "Jordan"), ("Month", "October"),
   ("Headline1", "Our Biggest Update Yet!"),
   ("TipOrInsight", "You can now sync your data across devices seamlessly."),
   ("EventName", "Annual Tech Summit"), ("EventDate", "November 15, 2025"),
   ("OfferDetails", "Get 20 percent off on all annual plans this month."),
   ("company_name", "Your Company")]

theorem c3_supplied_values_appear_verbatim_witness :
    List.lookup "company_name" newsletterExampleData = some "Your Company" ∧
    ((∀ n v, n ∈ varsOfItems (parseTemplate (fragmentOf TemplateId.newsletter)) →
        List.lookup n newsletterExampleData = some v →
        v.data <:+: (templateFor TemplateId.newsletter newsletterExampleData).2) ∧
     "The ".data ++ "Your Company".data ++ " Team".data <:+:
       (templateFor TemplateId.newsletter newsletterExampleData).2) :=
  ⟨by decide,
   c3_supplied_values_appear_verbatim TemplateId.newsletter
     newsletterExampleData "Your Company" (by decide)⟩

/-- C9: the renderer is deterministic and reads nothing but the variable
mapping: two mappings with the same lookup behavior (in particular, equal
mappings) render to the same subject and document, for every template. -/
theorem c9_renderer_deterministic (tid : TemplateId) (d1 d2 : Dict)
    (h : ∀ k, List.lookup k d1 = List.lookup k d2) :
    templateFor tid d1 = templateFor tid d2 := by
  have henv : dictEnv d1 = dictEnv d2 := funext fun k => h k
  have hget : ∀ k dflt, dget d1 k dflt = dget d2 k dflt := fun k dflt => by
    rw [dget, dget, h k]
  have hwe : ∀ subject w, wrapperEnv subject w d1 = wrapperEnv subject w d2 := by
    intro subject w
    funext k
    simp only [wrapperEnv]
    rw [hget]
  have hrt : ∀ subject body,
      render_template subject body d1 = render_template subject body d2 := by
    intro subject body
    simp only [render_template]
    rw [henv, hwe]
  cases tid <;>
    simp only [templateFor, get_subscription_end_notification,
      get_opt_in_confirmation, get_newsletter_template,
      get_product_launch_announcement, hget, hrt]

theorem c9_renderer_deterministic_witness :
    (∀ k, List.lookup k [("FirstName", "Casey")] =
      List.lookup k [("FirstName", "Casey"), ("FirstName", "Zed")]) ∧
    templateFor TemplateId.optIn [("FirstName", "Casey")] =
      templateFor TemplateId.optIn [("FirstName", "Casey"), ("FirstName", "Zed")] := by
  have h : ∀ k, List.lookup k [("FirstName", "Casey")] =
      List.lookup k [("FirstName", "Casey"), ("FirstName", "Zed")] := by
    intro k
    by_cases hk : k = "FirstName"
    · subst hk
      rfl
    · have hb : (k == "FirstName") = false := by
        simp [hk]
      simp [List.lookup, hb]
  exact ⟨h, c9_renderer_deterministic TemplateId.optIn _ _ h⟩

end EmailService
